import Mathlib

/-!
Verification development for `src/sonarqube/sonarqube_line_of_code_analysis.py`.

The script queries a SonarQube instance and aggregates lines-of-code (LOC)
metrics: a CSV report of every branch of every project, an instance-wide
total, and a top-N largest-files listing for one branch.

The remote service is modelled by a `Gateway` record holding the responses the
script observes: the project list, the branch list per project, the `measures`
array of the component request per (project, branch), and the component-tree
entries per (project, branch).  Metric values arrive as strings in the real
API and are converted with `int(...)` at every use site; here they are
modelled as already-parsed `Nat` values.  All functions below are direct
transcriptions of the corresponding Python functions.
-/

namespace SonarQube

/-- Embeds the dataclass `Result` (DTO with `number_of_lines` and
`identifier`). -/
structure Result where
  number_of_lines : Nat
  identifier : String
deriving DecidableEq, Repr

/-- Embeds the dataclass `BranchResult` (extends `Result` with
`branch_name`); flattened here since Lean structures carry the inherited
fields directly. -/
structure BranchResult where
  number_of_lines : Nat
  identifier : String
  branch_name : String
deriving DecidableEq, Repr

/-- The responses of the remote SonarQube service as observed through the
facade: `projects` is what `search_projects` yields, `branches p` what
`search_project_branches` yields for project `p`, `branchMeasures p b` the
`measures` array of `get_component_with_specified_measures` for branch `b`
of project `p`, and `fileTree p b` the `(path, ncloc)` entries of
`get_component_tree_with_specified_measures` in the order the server sent
them. -/
structure Gateway where
  projects : List String
  branches : String → List String
  branchMeasures : String → String → List Nat
  fileTree : String → String → List (String × Nat)

/-- Embeds `SonarQubeFacade._get_token_from_environment_variables`:
`os.getenv("SONARQUBE_ADMIN_TOKEN")`, with the process environment passed
explicitly. -/
def get_token_from_environment_variables (env : String → Option String) :
    Option String :=
  env "SONARQUBE_ADMIN_TOKEN"

/-- The state `SonarQubeFacade.__init__` establishes: the URL and the
resolved token (`None` in Python becomes `none`). -/
structure SonarQubeFacade where
  sonarqube_url : String
  token : Option String

/-- Embeds `SonarQubeFacade.__init__`: `self._token = token if token else
self._get_token_from_environment_variables()`.  The empty string is falsy in
Python, so an empty explicit token falls back to the environment.
Construction is a total function: `__init__` raises nothing itself. -/
def SonarQubeFacade.init (url : String) (tok : String)
    (env : String → Option String) : SonarQubeFacade :=
  { sonarqube_url := url,
    token := if tok = "" then get_token_from_environment_variables env
             else some tok }

/-- Configuration failure for a missing credential. -/
inductive ConfigError where
  | missing_token
deriving DecidableEq, Repr

/-- Modelled from the spec: the call-time credential check lives inside the
external `SonarQubeClient` library, which is not part of this repository.
Spec §4.1/§9 model it as a pure function resolving the facade's optional
token at the first gateway invocation, yielding `ConfigError` when no token
is present. -/
def resolve_token (f : SonarQubeFacade) : Except ConfigError String :=
  match f.token with
  | some t => Except.ok t
  | none => Except.error ConfigError.missing_token

/-- Embeds `SonarQubeFacade.get_branch_size`: `measures[0]["value"] if
len(measures) > 0 else 0`. -/
def get_branch_size (g : Gateway) (project_key branch_name : String) : Nat :=
  match g.branchMeasures project_key branch_name with
  | [] => 0
  | v :: _ => v

/-- Embeds `SonarQubeFacade.get_file_sizes`: one `Result(identifier=path,
number_of_lines=value)` per component-tree entry, in server order (the
request asks the server to sort by `ncloc` descending; the function itself
does not reorder). -/
def get_file_sizes (g : Gateway) (project_key branch_name : String) :
    List Result :=
  (g.fileTree project_key branch_name).map
    (fun component => { identifier := component.1,
                        number_of_lines := component.2 })

/-- The `branch_results` list accumulated by
`SonarQubeNumberOfLinesAnalysis.get_branch_size_report` before sorting: for
every project in discovery order, for every branch in discovery order, one
`BranchResult`. -/
def branchResults (g : Gateway) : List BranchResult :=
  g.projects.flatMap (fun project =>
    (g.branches project).map (fun branch =>
      { identifier := project, branch_name := branch,
        number_of_lines := get_branch_size g project branch }))

/-- Insertion step of the stable descending sort: `x` passes over elements
strictly larger than it and lands in front of the first element whose key is
less than or equal to its own. -/
def insertDesc (x : BranchResult) : List BranchResult → List BranchResult
  | [] => [x]
  | y :: ys =>
    if x.number_of_lines < y.number_of_lines then y :: insertDesc x ys
    else x :: y :: ys

/-- Embeds `sorted(branch_results, key=lambda x: x.number_of_lines,
reverse=True)`: Python's sort is stable and `reverse=True` keeps ties in
input order, which is exactly what this insertion sort produces. -/
def sortDesc : List BranchResult → List BranchResult
  | [] => []
  | x :: xs => insertDesc x (sortDesc xs)

/-- One CSV data row of the branch report, from the f-string
`"{identifier}, {branch_name}, {number_of_lines}\n"`. -/
def branchRow (r : BranchResult) : String :=
  r.identifier ++ ", " ++ r.branch_name ++ ", " ++
    toString r.number_of_lines ++ "\n"

/-- The sorted rows of the branch report. -/
def reportRows (g : Gateway) : List BranchResult :=
  sortDesc (branchResults g)

/-- Header line of the branch report. -/
def branchReportHeader : String := "Project, Branch, Number of lines of code\n"

/-- Embeds `SonarQubeNumberOfLinesAnalysis.get_branch_size_report`: the
header followed by the sorted rows, accumulated by string concatenation. -/
def get_branch_size_report (g : Gateway) : String :=
  branchReportHeader ++ String.join ((reportRows g).map branchRow)

/-- Python's `max` over a list: undefined (raises `ValueError`) on the empty
list, otherwise the left fold of binary max over the elements. -/
def maxNonempty : List Nat → Option Nat
  | [] => none
  | n :: ns => some (ns.foldl Nat.max n)

/-- The loop of `SonarQubeNumberOfLinesAnalysis.get_total_size`: per
project, `max` over the branch sizes; `none` models the `ValueError` Python
raises on a project with an empty branch list, which the script never
catches. -/
def totalSizeAux (g : Gateway) : List String → Option Nat
  | [] => some 0
  | project :: rest =>
    match maxNonempty ((g.branches project).map (get_branch_size g project)),
          totalSizeAux g rest with
    | some m, some t => some (m + t)
    | _, _ => none

/-- Embeds `SonarQubeNumberOfLinesAnalysis.get_total_size`. -/
def get_total_size (g : Gateway) : Option Nat :=
  totalSizeAux g g.projects

/-- The data rows of the top-files report: `file_sizes[:top_x]`. -/
def topRows (g : Gateway) (project_key branch_name : String) (top_x : Nat) :
    List Result :=
  (get_file_sizes g project_key branch_name).take top_x

/-- One CSV data row of the top-files report, from the f-string
`"{project_key}, {branch_name}, {identifier}, {number_of_lines}\n"`. -/
def fileRow (project_key branch_name : String) (r : Result) : String :=
  project_key ++ ", " ++ branch_name ++ ", " ++ r.identifier ++ ", " ++
    toString r.number_of_lines ++ "\n"

/-- Header line of the top-files report. -/
def topFilesHeader : String := "Project, Branch, Path, Number of lines of code\n"

/-- Embeds `SonarQubeNumberOfLinesAnalysis.get_top_x_files_report`. -/
def get_top_x_files_report (g : Gateway) (project_key branch_name : String)
    (top_x : Nat) : String :=
  topFilesHeader ++
    String.join ((topRows g project_key branch_name top_x).map
      (fileRow project_key branch_name))

/-- The maximum branch LOC of one project, as the spec words it ("the
maximum branch LOC for that project"); for `Nat`, the fold of binary max
with identity 0 is the maximum of a nonempty list. -/
def projectMax (g : Gateway) (project : String) : Nat :=
  ((g.branches project).map (get_branch_size g project)).foldr Nat.max 0

/-- All (project, branch) pairs the script discovers, in discovery order. -/
def branchPairs (g : Gateway) : List (String × String) :=
  g.projects.flatMap (fun project =>
    (g.branches project).map (fun branch => (project, branch)))

/-- The spec's scenario: projects A (branches main=100, feature=150) and B
(branch main=50). -/
def gScenario : Gateway where
  projects := ["A", "B"]
  branches := fun p =>
    if p = "A" then ["main", "feature"] else if p = "B" then ["main"] else []
  branchMeasures := fun p b =>
    if p = "A" then
      (if b = "main" then [100] else if b = "feature" then [150] else [])
    else if p = "B" then (if b = "main" then [50] else []) else []
  fileTree := fun _ _ => []

/-- A gateway with one project that has no branches at all. -/
def gEmpty : Gateway where
  projects := ["P"]
  branches := fun _ => []
  branchMeasures := fun _ _ => []
  fileTree := fun _ _ => []

/-- A gateway whose one branch has an empty measures array (absent metric). -/
def gAbsent : Gateway where
  projects := ["A"]
  branches := fun p => if p = "A" then ["main"] else []
  branchMeasures := fun _ _ => []
  fileTree := fun _ _ => []

/-- The spec's top-files scenario: branch `main` of project `A` with files
x.py=80, y.py=60, z.py=10. -/
def gTop : Gateway where
  projects := ["A"]
  branches := fun p => if p = "A" then ["main"] else []
  branchMeasures := fun _ _ => []
  fileTree := fun p b =>
    if p = "A" ∧ b = "main" then [("x.py", 80), ("y.py", 60), ("z.py", 10)]
    else []

/-- A gateway whose component-tree response is NOT sorted descending. -/
def gUnsorted : Gateway where
  projects := ["P"]
  branches := fun p => if p = "P" then ["b"] else []
  branchMeasures := fun _ _ => []
  fileTree := fun p b =>
    if p = "P" ∧ b = "b" then [("a.py", 1), ("b.py", 5)] else []

/-- A gateway whose component-tree response IS sorted descending. -/
def gSorted : Gateway where
  projects := ["P"]
  branches := fun p => if p = "P" then ["b"] else []
  branchMeasures := fun _ _ => []
  fileTree := fun p b =>
    if p = "P" ∧ b = "b" then [("big.py", 9), ("small.py", 2)] else []

/-- First of two gateways that agree on every response the branch report
observes. -/
def gDet1 : Gateway where
  projects := ["A"]
  branches := fun p => if p = "A" then ["main"] else []
  branchMeasures := fun p b => if p = "A" ∧ b = "main" then [7] else []
  fileTree := fun _ _ => []

/-- Second such gateway: identical on the observed responses, different on
branches of unlisted projects, measures of unlisted branches, and the file
tree. -/
def gDet2 : Gateway where
  projects := ["A"]
  branches := fun p => if p = "A" then ["main"] else ["ghost"]
  branchMeasures := fun p b => if p = "A" ∧ b = "main" then [7] else [99]
  fileTree := fun _ _ => [("junk.py", 1)]

/-- Inserting an element is a permutation of consing it. -/
theorem insertDesc_perm (x : BranchResult) (l : List BranchResult) :
    List.Perm (insertDesc x l) (x :: l) := by
  induction l with
  | nil => exact List.Perm.refl _
  | cons y ys ih =>
    simp only [insertDesc]
    by_cases hlt : x.number_of_lines < y.number_of_lines
    · rw [if_pos hlt]
      exact (ih.cons y).trans (List.Perm.swap x y ys)
    · rw [if_neg hlt]

/-- The sort is a permutation of its input. -/
theorem sortDesc_perm (l : List BranchResult) :
    List.Perm (sortDesc l) l := by
  induction l with
  | nil => exact List.Perm.refl _
  | cons x xs ih =>
    exact (insertDesc_perm x (sortDesc xs)).trans (ih.cons x)

/-- Inserting into a descending list keeps it descending. -/
theorem insertDesc_pairwise (x : BranchResult) (l : List BranchResult)
    (h : l.Pairwise (fun a b => b.number_of_lines ≤ a.number_of_lines)) :
    (insertDesc x l).Pairwise
      (fun a b => b.number_of_lines ≤ a.number_of_lines) := by
  induction l with
  | nil => simp [insertDesc]
  | cons y ys ih =>
    rcases List.pairwise_cons.mp h with ⟨hy, hys⟩
    simp only [insertDesc]
    by_cases hlt : x.number_of_lines < y.number_of_lines
    · rw [if_pos hlt]
      refine List.pairwise_cons.mpr ⟨?_, ih hys⟩
      intro z hz
      rcases List.mem_cons.mp ((insertDesc_perm x ys).mem_iff.mp hz) with
        rfl | hz'
      · exact Nat.le_of_lt hlt
      · exact hy z hz'
    · rw [if_neg hlt]
      refine List.pairwise_cons.mpr ⟨?_, h⟩
      intro z hz
      rcases List.mem_cons.mp hz with rfl | hz'
      · exact Nat.le_of_not_lt hlt
      · exact Nat.le_trans (hy z hz') (Nat.le_of_not_lt hlt)

/-- The sorted list is descending in `number_of_lines`. -/
theorem sortDesc_pairwise (l : List BranchResult) :
    (sortDesc l).Pairwise
      (fun a b => b.number_of_lines ≤ a.number_of_lines) := by
  induction l with
  | nil => simp [sortDesc]
  | cons x xs ih => exact insertDesc_pairwise x (sortDesc xs) ih

/-- Filtering one key class out of an insertion: the inserted element lands
in front of the elements with its own key, and key classes it passes over
are untouched. -/
theorem insertDesc_filter (x : BranchResult) (l : List BranchResult)
    (k : Nat) :
    (insertDesc x l).filter (fun r => r.number_of_lines == k) =
      if x.number_of_lines = k then
        x :: l.filter (fun r => r.number_of_lines == k)
      else l.filter (fun r => r.number_of_lines == k) := by
  induction l with
  | nil =>
    by_cases hx : x.number_of_lines = k
    · simp [insertDesc, hx]
    · simp [insertDesc, hx]
  | cons y ys ih =>
    simp only [insertDesc]
    by_cases hlt : x.number_of_lines < y.number_of_lines
    · rw [if_pos hlt]
      by_cases hy : y.number_of_lines = k
      · have hx : ¬ x.number_of_lines = k := by omega
        simp [List.filter_cons, hy, hx, ih]
      · simp [List.filter_cons, hy, ih]
    · rw [if_neg hlt]
      by_cases hx : x.number_of_lines = k
      · simp [List.filter_cons, hx]
      · simp [List.filter_cons, hx]

/-- Stability of the sort: each key class comes out in input order. -/
theorem sortDesc_filter (l : List BranchResult) (k : Nat) :
    (sortDesc l).filter (fun r => r.number_of_lines == k) =
      l.filter (fun r => r.number_of_lines == k) := by
  induction l with
  | nil => rfl
  | cons x xs ih =>
    simp only [sortDesc, insertDesc_filter, ih]
    by_cases hx : x.number_of_lines = k
    · simp [List.filter_cons, hx]
    · simp [List.filter_cons, hx]

/-- The left fold of binary max is the max of the seed and the fold over
the rest. -/
theorem foldl_max_eq (ns : List Nat) (n : Nat) :
    ns.foldl Nat.max n = Nat.max n (ns.foldr Nat.max 0) := by
  induction ns generalizing n with
  | nil => simp
  | cons m ms ih =>
    simp only [List.foldl_cons, List.foldr_cons]
    rw [ih (Nat.max n m)]
    exact Nat.max_assoc n m _

/-- Python's `max` on a nonempty list is the fold of binary max. -/
theorem maxNonempty_eq (l : List Nat) (h : l ≠ []) :
    maxNonempty l = some (l.foldr Nat.max 0) := by
  cases l with
  | nil => exact absurd rfl h
  | cons n ns => simp [maxNonempty, foldl_max_eq]

/-- The total-size loop over projects that all have branches sums the
per-project maxima. -/
theorem totalSizeAux_eq (g : Gateway) (ps : List String)
    (h : ∀ p ∈ ps, g.branches p ≠ []) :
    totalSizeAux g ps = some ((ps.map (projectMax g)).sum) := by
  induction ps with
  | nil => rfl
  | cons p rest ih =>
    have hp : g.branches p ≠ [] := h p (List.mem_cons_self p rest)
    have hmap : ((g.branches p).map (get_branch_size g p)) ≠ [] := by
      simpa using hp
    rw [totalSizeAux, maxNonempty_eq _ hmap,
      ih (fun q hq => h q (List.mem_cons_of_mem p hq))]
    simp [projectMax]

/-- One project with no branches makes the whole loop fail. -/
theorem totalSizeAux_none (g : Gateway) (ps : List String) (p : String)
    (hp : p ∈ ps) (hb : g.branches p = []) :
    totalSizeAux g ps = none := by
  induction ps with
  | nil => cases hp
  | cons q rest ih =>
    rcases List.mem_cons.mp hp with rfl | hmem
    · simp [totalSizeAux, hb, maxNonempty]
    · rw [totalSizeAux, ih hmem]
      cases maxNonempty ((g.branches q).map (get_branch_size g q)) <;> rfl

/-- Flat-mapping with functions that agree on the list gives equal
results. -/
theorem flatMap_congr_mem {α β : Type} {l : List α} {f₁ f₂ : α → List β}
    (h : ∀ a ∈ l, f₁ a = f₂ a) : l.flatMap f₁ = l.flatMap f₂ := by
  induction l with
  | nil => rfl
  | cons a as ih =>
    simp only [List.flatMap_cons]
    rw [h a (List.mem_cons_self a as),
      ih (fun x hx => h x (List.mem_cons_of_mem a hx))]

/-- C1: when every project has at least one branch (as "the maximum branch
LOC" presupposes), `get_total_size` equals the sum, over all projects, of
the maximum branch LOC of that project — not the sum of its branches. -/
theorem get_total_size_eq_sum_of_max (g : Gateway)
    (h : ∀ p ∈ g.projects, g.branches p ≠ []) :
    get_total_size g = some ((g.projects.map (projectMax g)).sum) :=
  totalSizeAux_eq g g.projects h

/-- Witness for C1 at the spec's scenario {A: {main: 100, feature: 150},
B: {main: 50}}: the total is 150 + 50 = 200 (B's single branch of 50
contributes exactly 50, once). -/
theorem get_total_size_eq_sum_of_max_witness :
    get_total_size gScenario = some 200 := by
  rw [get_total_size_eq_sum_of_max gScenario (by decide)]
  rfl

/-- C2: the rows of the branch report are sorted descending by
`number_of_lines`, and the sort is stable — for every key value, the rows
carrying that value appear in discovery order (project iteration order,
then branch iteration order), i.e. exactly as in `branchResults`. -/
theorem branch_report_sorted_stable (g : Gateway) :
    (reportRows g).Pairwise
        (fun a b => b.number_of_lines ≤ a.number_of_lines) ∧
      ∀ k : Nat,
        (reportRows g).filter (fun r => r.number_of_lines == k) =
          (branchResults g).filter (fun r => r.number_of_lines == k) :=
  ⟨sortDesc_pairwise (branchResults g),
   fun k => sortDesc_filter (branchResults g) k⟩

/-- C3: the explicit token argument wins; otherwise the token comes from
the environment variable SONARQUBE_ADMIN_TOKEN; construction itself never
fails, and the (spec-modelled) resolution at the first gateway call yields
`ConfigError` exactly when both sources are absent. -/
theorem credential_resolution (url tok : String)
    (env : String → Option String) :
    ((SonarQubeFacade.init url tok env).token =
        if tok = "" then env "SONARQUBE_ADMIN_TOKEN" else some tok) ∧
      (tok ≠ "" →
        resolve_token (SonarQubeFacade.init url tok env) = Except.ok tok) ∧
      (tok = "" → env "SONARQUBE_ADMIN_TOKEN" = none →
        resolve_token (SonarQubeFacade.init url tok env) =
          Except.error ConfigError.missing_token) := by
  refine ⟨rfl, ?_, ?_⟩
  · intro hne
    simp [resolve_token, SonarQubeFacade.init,
      get_token_from_environment_variables, hne]
  · intro he hn
    simp [resolve_token, SonarQubeFacade.init,
      get_token_from_environment_variables, he, hn]

/-- Witness for C3: an explicit token beats a set environment variable; a
missing pair yields the error only when resolving, while construction
succeeded; an empty explicit token falls back to the environment. -/
theorem credential_resolution_witness :
    resolve_token (SonarQubeFacade.init "https://sq" "cli-token"
        (fun _ => some "env-token")) = Except.ok "cli-token" ∧
      resolve_token (SonarQubeFacade.init "https://sq" "" (fun _ => none)) =
        Except.error ConfigError.missing_token ∧
      (SonarQubeFacade.init "https://sq" ""
        (fun v => if v = "SONARQUBE_ADMIN_TOKEN" then some "env-token"
                  else none)).token = some "env-token" :=
  ⟨(credential_resolution "https://sq" "cli-token"
      (fun _ => some "env-token")).2.1 (by decide),
   (credential_resolution "https://sq" "" (fun _ => none)).2.2 rfl rfl,
   ((credential_resolution "https://sq" ""
      (fun v => if v = "SONARQUBE_ADMIN_TOKEN" then some "env-token"
                else none)).1).trans (by rfl)⟩

/-- C4: when every project has at least one branch, `get_total_size`
completes without error; a project with an empty branch list makes the
undefined `max()` over an empty sequence propagate as a fatal error (the
uncaught `ValueError`, modelled as `none`). -/
theorem get_total_size_empty_branches (g : Gateway) :
    ((∀ p ∈ g.projects, g.branches p ≠ []) → (get_total_size g).isSome) ∧
      ∀ p ∈ g.projects, g.branches p = [] → get_total_size g = none := by
  constructor
  · intro h
    rw [get_total_size, totalSizeAux_eq g g.projects h]
    rfl
  · intro p hp hb
    exact totalSizeAux_none g g.projects p hp hb

/-- Witness for C4: the scenario gateway succeeds; a gateway whose one
project has no branches fails. -/
theorem get_total_size_empty_branches_witness :
    (get_total_size gScenario).isSome ∧ get_total_size gEmpty = none :=
  ⟨(get_total_size_empty_branches gScenario).1 (by decide),
   (get_total_size_empty_branches gEmpty).2 "P" (by decide) rfl⟩

/-- C5: an empty measures array makes `get_branch_size` return 0 without
error, and the branch still appears in the branch report rows with value
0. -/
theorem absent_metric_is_zero (g : Gateway) (p b : String)
    (hp : p ∈ g.projects) (hb : b ∈ g.branches p)
    (hm : g.branchMeasures p b = []) :
    get_branch_size g p b = 0 ∧
      ({ number_of_lines := 0, identifier := p, branch_name := b } :
        BranchResult) ∈ reportRows g := by
  have hz : get_branch_size g p b = 0 := by simp [get_branch_size, hm]
  refine ⟨hz, ?_⟩
  have hmem : ({ number_of_lines := 0, identifier := p, branch_name := b } :
      BranchResult) ∈ branchResults g := by
    unfold branchResults
    refine List.mem_flatMap.mpr ⟨p, hp, ?_⟩
    refine List.mem_map.mpr ⟨b, hb, ?_⟩
    simp [hz]
  exact ((sortDesc_perm (branchResults g)).mem_iff).mpr hmem

/-- Witness for C5: a branch whose measures array is empty is reported
with 0 lines. -/
theorem absent_metric_is_zero_witness :
    get_branch_size gAbsent "A" "main" = 0 ∧
      ({ number_of_lines := 0, identifier := "A", branch_name := "main" } :
        BranchResult) ∈ reportRows gAbsent :=
  absent_metric_is_zero gAbsent "A" "main" (by decide) (by decide) rfl

/-- C6: the top-files report has at most `top_x` data rows, and when the
branch has no more than `top_x` files it reports all of them. -/
theorem top_files_at_most (g : Gateway) (p b : String) (n : Nat) :
    (topRows g p b n).length ≤ n ∧
      ((get_file_sizes g p b).length ≤ n →
        topRows g p b n = get_file_sizes g p b) :=
  ⟨List.length_take_le .., fun h => List.take_of_length_le h⟩

/-- Witness for C6 at the spec's scenario over files x.py=80, y.py=60,
z.py=10: with `top_x = 2` the output is exactly the first two rows, and
with `top_x = 5` all three files are returned. -/
theorem top_files_at_most_witness :
    (topRows gTop "A" "main" 2).length ≤ 2 ∧
      topRows gTop "A" "main" 5 = get_file_sizes gTop "A" "main" ∧
      get_top_x_files_report gTop "A" "main" 2 =
        "Project, Branch, Path, Number of lines of code\n" ++
          "A, main, x.py, 80\nA, main, y.py, 60\n" :=
  ⟨(top_files_at_most gTop "A" "main" 2).1,
   (top_files_at_most gTop "A" "main" 5).2 (by decide),
   by rfl⟩

/-- C7 counterexample: `get_file_sizes` performs no client-side sort, so a
server response that is not descending comes back not sorted descending —
the claimed ordering does not hold for every response of the remote
service. -/
theorem get_file_sizes_not_always_sorted :
    ¬ (get_file_sizes gUnsorted "P" "b").Pairwise
        (fun a b => b.number_of_lines ≤ a.number_of_lines) := by
  decide

/-- C7 amended: `get_file_sizes` maps the server's component-tree entries
one-to-one in server order (no client-side reordering); the request asks
the server to sort descending by the metric, so the returned sequence is
sorted descending exactly when the server's response is. -/
theorem get_file_sizes_server_order (g : Gateway) (p b : String) :
    ((get_file_sizes g p b).map
        (fun r => (r.identifier, r.number_of_lines)) = g.fileTree p b) ∧
      ((g.fileTree p b).Pairwise (fun x y => y.2 ≤ x.2) →
        (get_file_sizes g p b).Pairwise
          (fun a b => b.number_of_lines ≤ a.number_of_lines)) := by
  constructor
  · rw [get_file_sizes, List.map_map]
    exact List.map_id _
  · intro h
    exact h.map _ (fun {a b} hab => hab)

/-- Witness for C7 amended: on a descending server response the output is
the response itself, descending. -/
theorem get_file_sizes_server_order_witness :
    ((get_file_sizes gSorted "P" "b").map
        (fun r => (r.identifier, r.number_of_lines)) =
          gSorted.fileTree "P" "b") ∧
      (get_file_sizes gSorted "P" "b").Pairwise
        (fun a b => b.number_of_lines ≤ a.number_of_lines) :=
  ⟨(get_file_sizes_server_order gSorted "P" "b").1,
   (get_file_sizes_server_order gSorted "P" "b").2 (by decide)⟩

/-- C8: the branch report is the header line `Project, Branch, Number of
lines of code` followed by exactly one row per discovered (project, branch)
pair, each row being the comma-separated values with a trailing newline. -/
theorem branch_report_shape (g : Gateway) :
    get_branch_size_report g =
        branchReportHeader ++ String.join ((reportRows g).map branchRow) ∧
      List.Perm
        ((reportRows g).map (fun r => (r.identifier, r.branch_name)))
        (branchPairs g) ∧
      ∀ r : BranchResult, branchRow r =
        r.identifier ++ ", " ++ r.branch_name ++ ", " ++
          toString r.number_of_lines ++ "\n" := by
  refine ⟨rfl, ?_, fun r => rfl⟩
  have h1 : List.Perm
      ((reportRows g).map (fun r => (r.identifier, r.branch_name)))
      ((branchResults g).map (fun r => (r.identifier, r.branch_name))) :=
    (sortDesc_perm (branchResults g)).map _
  have h2 : (branchResults g).map
      (fun r => (r.identifier, r.branch_name)) = branchPairs g := by
    simp only [branchResults, branchPairs, List.map_flatMap, List.map_map,
      Function.comp_def]
  exact h1.trans (h2 ▸ List.Perm.refl _)

/-- C9: the branch report depends only on the gateway responses it
observes — two gateways agreeing on the project list, on the branches of
every listed project, and on the measures of every listed branch produce
byte-identical report text. -/
theorem branch_report_deterministic (g₁ g₂ : Gateway)
    (hp : g₁.projects = g₂.projects)
    (hb : ∀ p ∈ g₁.projects, g₁.branches p = g₂.branches p)
    (hm : ∀ p ∈ g₁.projects, ∀ b ∈ g₁.branches p,
      g₁.branchMeasures p b = g₂.branchMeasures p b) :
    get_branch_size_report g₁ = get_branch_size_report g₂ := by
  have hbr : branchResults g₁ = branchResults g₂ := by
    unfold branchResults
    rw [← hp]
    refine flatMap_congr_mem (fun p hpm => ?_)
    rw [← hb p hpm]
    refine List.map_congr_left (fun b hbm => ?_)
    have : get_branch_size g₁ p b = get_branch_size g₂ p b := by
      unfold get_branch_size
      rw [hm p hpm b hbm]
    rw [this]
  unfold get_branch_size_report reportRows
  rw [hbr]

/-- Witness for C9: two gateways that differ on branches of unlisted
projects, on measures of unlisted branches, and on the file tree, but agree
on the observed responses, produce identical reports. -/
theorem branch_report_deterministic_witness :
    get_branch_size_report gDet1 = get_branch_size_report gDet2 ∧
      gDet1.branches "Z" ≠ gDet2.branches "Z" ∧
      gDet1.fileTree "A" "main" ≠ gDet2.fileTree "A" "main" :=
  ⟨branch_report_deterministic gDet1 gDet2 rfl (by decide) (by decide),
   by decide, by decide⟩

/-- C10: the data rows of the top-files report are exactly the first
`top_x` entries of the gateway's file sequence in unchanged relative order:
a prefix of `get_file_sizes`, of length `min top_x (number of files)`,
rendered row by row with no re-sorting, filtering, or reordering. -/
theorem top_files_no_reorder (g : Gateway) (p b : String) (n : Nat) :
    (∃ rest, get_file_sizes g p b = topRows g p b n ++ rest) ∧
      (topRows g p b n).length = min n (get_file_sizes g p b).length ∧
      get_top_x_files_report g p b n =
        topFilesHeader ++
          String.join ((topRows g p b n).map (fileRow p b)) :=
  ⟨⟨(get_file_sizes g p b).drop n, (List.take_append_drop ..).symm⟩,
   List.length_take .., rfl⟩

end SonarQube
